import Mathlib

/-!
Shallow embedding of the apartment-chatbot query router and retrieval
engine (`src/app/data_loader.py` and `src/app/chatbot.py`).

External collaborators are parameters:
* the MongoDB collection is a `List Apartment` passed to each function;
* the Chroma vector index is a function `String → Nat → List (Row × ℚ)`
  returning (document metadata, distance) pairs for a query and a fetch
  size, mirroring `vectorstore.similarity_search_with_score`.

Python floats are modelled as `ℚ`; Python `round(x, n)` (banker's
rounding) as `pyRoundTo`; Python's `str.lower`/`str.strip` as ASCII
`pyLower`/`pyStrip`; the substring operator `needle in haystack` as
`pyIn`.  Mongo documents always carry the five apartment fields here
(the source reads them with `.get` defaults that are never exercised by
well-formed data).
-/

/-- Characterwise match of the needle against the front of the haystack. -/
def subAt : List Char → List Char → Bool
  | [], _ => true
  | _ :: _, [] => false
  | a :: as, b :: bs => a == b && subAt as bs

/-- Substring search over character lists (needle first). -/
def hasSub (n : List Char) : List Char → Bool
  | [] => n.isEmpty
  | c :: t => subAt n (c :: t) || hasSub n t

/-- Python's `needle in haystack` on strings. -/
def pyIn (needle hay : String) : Bool := hasSub needle.data hay.data

/-- Python's `str.lower()` (ASCII range, which covers the source's data). -/
def pyLower (s : String) : String := ⟨s.data.map Char.toLower⟩

/-- Python's `str.strip()`: drop leading and trailing whitespace. -/
def pyStrip (s : String) : String :=
  ⟨((s.data.dropWhile Char.isWhitespace).reverse.dropWhile Char.isWhitespace).reverse⟩

/-- Value of a digit run, as read by Python's `int`. -/
def digitsVal (ds : List Char) : Nat := ds.foldl (fun n c => n * 10 + (c.toNat - 48)) 0

/-- Round the fraction `n / d` (with `d > 0`) to the nearest integer,
ties to even, as Python's builtin `round`; stated on a raw
numerator/denominator pair so that it evaluates by kernel reduction. -/
def roundPairHalfEven (n : ℤ) (d : ℕ) : ℤ :=
  let f := Int.fdiv n (d : ℤ)
  let rem2 := 2 * (n - f * (d : ℤ))
  if rem2 < (d : ℤ) then f
  else if (d : ℤ) < rem2 then f + 1
  else if f % 2 = 0 then f else f + 1

/-- Python's `round(q, p)` on our rational model of floats: round
`q · 10^p` to the nearest integer (ties to even) and divide back. -/
def pyRoundTo (p : Nat) (q : ℚ) : ℚ :=
  mkRat (roundPairHalfEven (q.num * ((10 ^ p : ℕ) : ℤ)) q.den) (10 ^ p)

/-- Render a score with two decimal places, as the f-string `:.2f`. -/
def fmt2 (q : ℚ) : String :=
  let n := roundPairHalfEven (q.num * 100) q.den
  let m := n.natAbs
  (if n < 0 then "-" else "") ++ toString (m / 100) ++ "." ++
    (if m % 100 < 10 then "0" else "") ++ toString (m % 100)

/-- An apartment document as stored in the `apartments` collection. -/
structure Apartment where
  bedrooms : Nat
  location : String
  price : Nat
  area_sqft : Nat
  amenities : List String
deriving DecidableEq

/-- The value under an `amenities` key: Mongo records hold a list of
strings, Chroma metadata holds the comma-joined string built by
`create_langchain_documents`. -/
inductive AmenVal where
  | list (l : List String)
  | str (s : String)
deriving DecidableEq

/-- A result dictionary as it flows through retrieval: the five record
fields plus the keys that the semantic path may add. -/
structure Row where
  bedrooms : Nat
  location : String
  price : Nat
  area_sqft : Nat
  amenities : AmenVal
  city : Option String
  similarity_score : Option ℚ
  summary : Option String
deriving DecidableEq

/-- A Mongo record viewed as a result dictionary. -/
def Apartment.toRow (a : Apartment) : Row :=
  ⟨a.bedrooms, a.location, a.price, a.area_sqft, AmenVal.list a.amenities, none, none, none⟩

/-- `get_unique_locations`: the distinct non-empty location values in the
store (Mongo's `$group` enumeration order is unspecified; we pick
first-occurrence order deterministically). -/
def get_unique_locations (store : List Apartment) : List String :=
  ((store.map (fun a => a.location)).eraseDups).filter (fun l => !(l == ""))

/-- A Python dict insert: replace in place if the key exists, else append. -/
def dictInsert (m : List (String × String)) (k v : String) : List (String × String) :=
  if m.any (fun p => p.1 == k) then
    m.map (fun p => if p.1 == k then (k, v) else p)
  else m ++ [(k, v)]

/-- `location_map = {loc.lower(): loc for loc in available_locations}`. -/
def buildLocMap (locs : List String) : List (String × String) :=
  locs.foldl (fun m loc => dictInsert m (pyLower loc) loc) []

/-- `loc_lower.split(",")[0].strip()`: the city part of a location key. -/
def cityPart (k : String) : String := pyStrip ⟨k.data.takeWhile (fun c => c != ',')⟩

/-- First loop of `extract_location_from_query`: direct containment match. -/
def locLoop1 (ql : String) : List (String × String) → Option String
  | [] => none
  | (kl, ks) :: rest => if pyIn kl ql then some ks else locLoop1 ql rest

/-- Second loop of `extract_location_from_query`: city-part match. -/
def locLoop2 (ql : String) : List (String × String) → Option String
  | [] => none
  | (kl, ks) :: rest => if pyIn (cityPart kl) ql then some ks else locLoop2 ql rest

/-- Inner loop of the alias stage: first location containing the alias. -/
def locLoop3Inner (a : String) : List (String × String) → Option String
  | [] => none
  | (kl, ks) :: rest => if pyIn a kl then some ks else locLoop3Inner a rest

/-- The `city_aliases` values of the source, flattened in iteration order. -/
def cityAliasesFlat : List String :=
  ["pune", "puna", "mumbai", "bombay", "bangalore", "bengaluru", "delhi", "new delhi", "dilli"]

/-- Outer loops of the alias stage: a failed inner lookup falls through to
the next alias. -/
def locLoop3 (ql : String) (m : List (String × String)) : List String → Option String
  | [] => none
  | a :: rest =>
    if pyIn a ql then
      match locLoop3Inner a m with
      | some v => some v
      | none => locLoop3 ql m rest
    else locLoop3 ql m rest

/-- `extract_location_from_query`: lowercase the query, build the location
map, then run the three matching stages in order. -/
def extract_location_from_query (q : String) (locs : List String) : Option String :=
  let ql := pyLower q
  let m := buildLocMap locs
  match locLoop1 ql m with
  | some v => some v
  | none =>
    match locLoop2 ql m with
    | some v => some v
    | none => locLoop3 ql m cityAliasesFlat

/-- The greeting phrase list of `classify_user_query`. -/
def greetings : List String :=
  ["hi", "hello", "hey", "how are you", "good morning", "good evening"]

/-- `re.search("(most expensive|highest price|most costly)", q)` as a
containment test (the pattern is a plain alternation). -/
def priceDescHit (s : String) : Bool :=
  pyIn "most expensive" s || pyIn "highest price" s || pyIn "most costly" s

/-- The `cheapest|lowest price|most affordable` alternation. -/
def priceAscHit (s : String) : Bool :=
  pyIn "cheapest" s || pyIn "lowest price" s || pyIn "most affordable" s

/-- The `biggest|largest` alternation. -/
def areaDescHit (s : String) : Bool := pyIn "biggest" s || pyIn "largest" s

/-- The `smallest|tiniest` alternation. -/
def areaAscHit (s : String) : Bool := pyIn "smallest" s || pyIn "tiniest" s

/-- The generic filter trigger words. -/
def filterTriggers : List String :=
  ["with", "in", "under", "above", "near", "bhk", "bedroom", "budget"]

/-- `classify_user_query`: ordered rule cascade over the lowercased and
stripped query.  Python's truthiness test on the resolved location is
`Option.isSome` here, since stored locations are non-empty strings. -/
def classify_user_query (q : String) (locs : List String) : String :=
  let query := pyStrip (pyLower q)
  if greetings.any (fun g => pyIn g query) then "greeting"
  else
    let location := extract_location_from_query query locs
    if priceDescHit query then
      if location.isSome then "sort_by_price_desc_location" else "sort_by_price_desc"
    else if priceAscHit query then
      if location.isSome then "sort_by_price_asc_location" else "sort_by_price_asc"
    else if areaDescHit query then
      if location.isSome then "sort_by_area_desc_location" else "sort_by_area_desc"
    else if areaAscHit query then
      if location.isSome then "sort_by_area_asc_location" else "sort_by_area_asc"
    else if filterTriggers.any (fun w => pyIn w query) then "filter_search"
    else "semantic_search"

/-- The structured Mongo filter built by `filter_based_search`: every key
is optional; the single `price` key of the source holds either an upper
or a lower bound, never both, so it appears as two options here of which
at most one is set. -/
structure FilterSpec where
  bedrooms : Option Nat
  location : Option String
  priceLe : Option Nat
  priceGe : Option Nat
  amenitiesAll : List String
deriving DecidableEq

/-- Does `bhk` (after at most one whitespace char) follow here?  Models
the `\s?bhk` tail of the BHK pattern, greedy with backtracking. -/
def bhkAfter (rest : List Char) : Bool :=
  subAt "bhk".data rest ||
    (match rest with
     | w :: r2 => w.isWhitespace && subAt "bhk".data r2
     | [] => false)

/-- Leftmost match of `re.search(r"(\d)\s?bhk", q)`, returning group 1. -/
def findBhk : List Char → Option Nat
  | [] => none
  | c :: t => if c.isDigit && bhkAfter t then some (c.toNat - 48) else findBhk t

/-- After a price keyword: `\s?(\d+)` with greedy matching; if skipping
the single whitespace leaves no digits, the backtracked attempt starts at
that whitespace and fails as well. -/
def numAfter (rest : List Char) : Option Nat :=
  let r2 := match rest with
    | w :: rt => if w.isWhitespace then rt else w :: rt
    | [] => []
  let ds := r2.takeWhile Char.isDigit
  if ds.isEmpty then none else some (digitsVal ds)

/-- Match one price keyword at the front and then a number. -/
def matchKwNum (kw cs : List Char) : Option Nat :=
  if subAt kw cs then numAfter (cs.drop kw.length) else none

/-- Leftmost match of `re.search(r"(k1|k2)\s?(\d+)", q)`, returning the
numeric group (the two keywords of each pattern start with distinct
letters, so alternation order never changes the leftmost match). -/
def findKwNum (k1 k2 : List Char) : List Char → Option Nat
  | [] => none
  | c :: t =>
    match matchKwNum k1 (c :: t) with
    | some n => some n
    | none =>
      match matchKwNum k2 (c :: t) with
      | some n => some n
      | none => findKwNum k1 k2 t

/-- The amenity keyword rules of `filter_based_search`. -/
def extract_amenities (ql : String) : List String :=
  (if pyIn "pool" ql then ["Swimming Pool"] else []) ++
    (if pyIn "gym" ql then ["Gym"] else []) ++
      (if pyIn "parking" ql then ["Parking"] else [])

/-- The filter-building half of `filter_based_search`: lowercase the
query, then apply the BHK, location, price (an `if`/`elif`, with regex
failure swallowed by `try`/`except` into an absent key) and amenity
rules. -/
def extract_filter (q0 : String) (locs : List String) : FilterSpec :=
  let query := pyLower q0
  let bhk := findBhk query.data
  let loc := extract_location_from_query query locs
  let price : Option Nat × Option Nat :=
    if pyIn "under" query || pyIn "below" query then
      (findKwNum "under".data "below".data query.data, none)
    else if pyIn "above" query || pyIn "over" query then
      (none, findKwNum "above".data "over".data query.data)
    else (none, none)
  ⟨bhk, loc, price.1, price.2, extract_amenities query⟩

/-- Whether a record satisfies a built filter, as Mongo `find` would. -/
def matchesFilter (f : FilterSpec) (a : Apartment) : Bool :=
  (match f.bedrooms with | some b => a.bedrooms == b | none => true) &&
  (match f.location with | some l => a.location == l | none => true) &&
  (match f.priceLe with | some p => decide (a.price ≤ p) | none => true) &&
  (match f.priceGe with | some p => decide (p ≤ a.price) | none => true) &&
  f.amenitiesAll.all (fun x => a.amenities.contains x)

/-- `filter_based_search`: build the filter from the query and return
every matching record (no sort, no limit). -/
def filter_based_search (store : List Apartment) (q : String) (locs : List String) :
    List Apartment :=
  store.filter (matchesFilter (extract_filter q locs))

/-- The sortable fields of the source's sort intents. -/
inductive SortField where
  | price
  | area
deriving DecidableEq

/-- The record field a sort intent orders by. -/
def fieldVal : SortField → Apartment → Nat
  | SortField.price, a => a.price
  | SortField.area, a => a.area_sqft

/-- Insert into a sorted list (model of the store's sort operator). -/
def insertSorted (le : Apartment → Apartment → Bool) (a : Apartment) :
    List Apartment → List Apartment
  | [] => [a]
  | b :: t => if le a b then a :: b :: t else b :: insertSorted le a t

/-- Insertion sort, our model of Mongo's `.sort(field, direction)`. -/
def sortByLe (le : Apartment → Apartment → Bool) : List Apartment → List Apartment
  | [] => []
  | x :: xs => insertSorted le x (sortByLe le xs)

/-- The comparison for `.sort(field, direction)`. -/
def sortLe (f : SortField) (desc : Bool) (a b : Apartment) : Bool :=
  if desc then decide (fieldVal f b ≤ fieldVal f a) else decide (fieldVal f a ≤ fieldVal f b)

/-- `handle_location_specific_sort`: resolve the location into an optional
equality filter, then sort by the named field and truncate to `top_k`. -/
def handle_location_specific_sort (store : List Apartment) (q : String) (f : SortField)
    (desc : Bool) (locs : List String) (topk : Nat) : List Apartment :=
  let location := extract_location_from_query q locs
  let base := match location with
    | some l => store.filter (fun a => a.location == l)
    | none => store
  (sortByLe (sortLe f desc) base).take topk

/-- `collection.find({}).sort(field, dir).limit(top_k)` of the general
(unqualified) sort intents. -/
def plainSort (store : List Apartment) (f : SortField) (desc : Bool) (topk : Nat) :
    List Apartment :=
  (sortByLe (sortLe f desc) store).take topk

/-- The dedup key of the semantic path: (bedrooms, location, price, area). -/
def dedupKey (r : Row) : Nat × String × Nat × Nat :=
  (r.bedrooms, r.location, r.price, r.area_sqft)

/-- The summary the semantic path stores into the metadata dict. -/
def semSummary (d : Row) : String :=
  "🏠 A " ++ toString d.bedrooms ++ " BHK apartment in " ++ d.location ++
    " spanning " ++ toString d.area_sqft ++ " sqft, available at ₹" ++ toString d.price ++
    ". Amenities include " ++
    (match d.amenities with
     | AmenVal.str s => s
     | AmenVal.list l => String.intercalate ", " l) ++ "."

/-- The two keys `chromadb_semantic_search` adds to an emitted metadata
dict: the distance rounded to 4 decimal places and a summary line. -/
def augmentSem (d : Row) (score : ℚ) : Row :=
  { d with similarity_score := some (pyRoundTo 4 score), summary := some (semSummary d) }

/-- The dedup-and-cap loop of `chromadb_semantic_search`: `unique` is the
set of emitted keys, `filtered` the emitted list; the cap test runs after
each iteration's conditional emit, exactly as in the source. -/
def semLoop (topk : Nat) : List (Row × ℚ) → List (Nat × String × Nat × Nat) → List Row →
    List Row
  | [], _, filtered => filtered
  | (doc, score) :: rest, unique, filtered =>
    let key := dedupKey doc
    let next :=
      if key ∈ unique then (unique, filtered)
      else (key :: unique, filtered ++ [augmentSem doc score])
    if topk ≤ next.2.length then next.2
    else semLoop topk rest next.1 next.2

/-- `chromadb_semantic_search`: over-fetch `2 × top_k` neighbors from the
vector index, then deduplicate, score and cap. -/
def chromadb_semantic_search (vec : String → Nat → List (Row × ℚ)) (q : String)
    (topk : Nat) : List Row :=
  semLoop topk (vec q (topk * 2)) [] []

/-- `location.split(",")[-1].strip().lower()` with Python truthiness on
the location string, for the `city` metadata key. -/
def cityOf (loc : String) : String :=
  if loc == "" then "unknown"
  else pyLower (pyStrip ⟨(loc.data.reverse.takeWhile (fun c => c != ',')).reverse⟩)

/-- A LangChain document: an embeddable text blob plus metadata. -/
structure LDocument where
  page_content : String
  metadata : Row
deriving DecidableEq

/-- `create_langchain_documents`: one document per record; note that the
metadata's `amenities` is the comma-joined string, not the stored list. -/
def create_langchain_documents (data : List Apartment) : List LDocument :=
  data.map (fun a =>
    let amen := String.intercalate ", " a.amenities
    ⟨"This is a " ++ toString a.bedrooms ++ " BHK apartment in " ++ a.location ++
        ". It spans " ++ toString a.area_sqft ++ " sqft and is priced at ₹" ++
        toString a.price ++ ". Key amenities include: " ++ amen ++ ".",
      ⟨a.bedrooms, a.location, a.price, a.area_sqft, AmenVal.str amen,
        some (cityOf a.location), none, none⟩⟩)

/-- The `type` tag some handler items carry. -/
inductive ItemTag where
  | greeting
  | no_results
  | header
deriving DecidableEq

/-- The `details` sub-object of an enriched record item. -/
structure Details where
  bedrooms : Nat
  location : String
  price : Nat
  area_sqft : Nat
  amenities : AmenVal
deriving DecidableEq

/-- An item of the list `handle_user_query` returns.  Greeting,
no-results and header items carry a tag; record items carry details; no
item ever carries a `similarity_score` key (the enrichment step drops
it), which the last field records. -/
structure HandlerItem where
  summary : String
  tag : Option ItemTag
  details : Option Details
  similarity_score : Option ℚ
deriving DecidableEq

/-- The per-record enrichment of `handle_user_query`: a multi-line
summary (with a relevance line only when the dict carries a score) and
the `details` sub-object copied field by field. -/
def enrich (item : Row) : HandlerItem :=
  let amenText := match item.amenities with
    | AmenVal.list l => String.intercalate ", " l
    | AmenVal.str s => s
  let base := "🏠 **" ++ toString item.bedrooms ++ " BHK Apartment**\n📍 **Location:** " ++
    item.location ++ "\n📏 **Area:** " ++ toString item.area_sqft ++
    " sqft\n💰 **Price:** ₹" ++ toString item.price ++ "\n🛁 **Amenities:** " ++
    amenText ++ "\n"
  let summary := match item.similarity_score with
    | some s => base ++ "🔍 **Relevance Score:** " ++ fmt2 s
    | none => base
  ⟨summary, none,
    some ⟨item.bedrooms, item.location, item.price, item.area_sqft, item.amenities⟩,
    none⟩

/-- The intent dispatch of `handle_user_query` (the non-greeting arm):
each sort intent queries and truncates, `filter_search` queries without a
limit, and everything else falls to semantic search. -/
def dispatch (store : List Apartment) (vec : String → Nat → List (Row × ℚ))
    (q : String) (locs : List String) (intent : String) (topk : Nat) : List Row :=
  if intent == "sort_by_price_desc_location" then
    (handle_location_specific_sort store q SortField.price true locs topk).map Apartment.toRow
  else if intent == "sort_by_price_asc_location" then
    (handle_location_specific_sort store q SortField.price false locs topk).map Apartment.toRow
  else if intent == "sort_by_area_desc_location" then
    (handle_location_specific_sort store q SortField.area true locs topk).map Apartment.toRow
  else if intent == "sort_by_area_asc_location" then
    (handle_location_specific_sort store q SortField.area false locs topk).map Apartment.toRow
  else if intent == "sort_by_price_desc" then
    (plainSort store SortField.price true topk).map Apartment.toRow
  else if intent == "sort_by_price_asc" then
    (plainSort store SortField.price false topk).map Apartment.toRow
  else if intent == "sort_by_area_desc" then
    (plainSort store SortField.area true topk).map Apartment.toRow
  else if intent == "sort_by_area_asc" then
    (plainSort store SortField.area false topk).map Apartment.toRow
  else if intent == "filter_search" then
    (filter_based_search store q locs).map Apartment.toRow
  else chromadb_semantic_search vec q topk

/-- The fixed greeting reply. -/
def greetingMsg : String :=
  "👋 Hello! I\x27m your apartment search assistant. How can I help you find your perfect home today?"

/-- The fixed apology of the handler's no-results item. -/
def noResultsMsg : String :=
  "🔍 I couldn\x27t find any apartments matching your criteria. Try broadening your search or adjusting your filters."

/-- The ` in <location>` / ` we have` suffix of the sort headers. -/
def locSuffix : Option String → String
  | some l => " in " ++ l
  | none => " we have"

/-- The header line chosen from the intent (by substring tests on the
intent string, as in the source) and the re-resolved location. -/
def headerFor (intent : String) (location : Option String) : String :=
  if pyIn "sort_by_price_desc" intent then
    "Here are the most expensive apartments" ++ locSuffix location ++ ":"
  else if pyIn "sort_by_price_asc" intent then
    "Here are the most affordable apartments" ++ locSuffix location ++ ":"
  else if pyIn "sort_by_area_desc" intent then
    "Here are the largest apartments" ++ locSuffix location ++ ":"
  else if pyIn "sort_by_area_asc" intent then
    "Here are the most compact apartments" ++ locSuffix location ++ ":"
  else if intent == "filter_search" then "Here are apartments matching your filters:"
  else "Here are some apartments that might interest you:"

/-- `handle_user_query`: classify, short-circuit greetings, dispatch,
enrich, and either return the fixed no-results item or prepend a header. -/
def handle_user_query (store : List Apartment) (vec : String → Nat → List (Row × ℚ))
    (query : String) (topk : Nat) : List HandlerItem :=
  let available_locations := get_unique_locations store
  let intent := classify_user_query query available_locations
  if intent == "greeting" then [⟨greetingMsg, some ItemTag.greeting, none, none⟩]
  else
    let results := dispatch store vec query available_locations intent topk
    let enriched := results.map enrich
    if enriched.isEmpty then [⟨noResultsMsg, some ItemTag.no_results, none, none⟩]
    else
      let location := extract_location_from_query query available_locations
      ⟨"✨ " ++ headerFor intent location, some ItemTag.header, none, none⟩ :: enriched

/-- An item of the envelope's `results` array. -/
structure ChatResult where
  summary : String
  similarity_score : Option ℚ
deriving DecidableEq

/-- The top-level response envelope of `get_chat_response`. -/
structure ChatResponse where
  status : String
  message : Option String
  query : Option String
  results : List ChatResult
deriving DecidableEq

/-- `get_chat_response`: wrap the handler's items into the envelope.  The
`no_results` arm fires only on an empty match list; otherwise a leading
greeting item short-circuits, and every other match becomes a result item
whose score defaults to 0 when the match carries none. -/
def get_chat_response (store : List Apartment) (vec : String → Nat → List (Row × ℚ))
    (query : String) : ChatResponse :=
  let ms := handle_user_query store vec query 5
  match ms with
  | [] => ⟨"no_results", some "Sorry, no matching apartments found.", none, []⟩
  | m :: _ =>
    if m.tag == some ItemTag.greeting then ⟨"greeting", some m.summary, none, []⟩
    else
      ⟨"success", none, some query,
        ms.map (fun mm =>
          ⟨mm.summary, some (pyRoundTo 3 (mm.similarity_score.getD 0))⟩)⟩

/-- The empty vector index, for queries that never reach it. -/
def vecEmpty : String → Nat → List (Row × ℚ) := fun _ _ => []

/-- A concrete apartment record used in witnesses and counterexamples. -/
def apt1 : Apartment := ⟨2, "Baner, Pune", 45000, 950, ["Gym", "Parking"]⟩

/-- A one-record store. -/
def store1 : List Apartment := [apt1]

/-- A vector index returning the document built from `apt1` at distance 1/2. -/
def vecDoc : String → Nat → List (Row × ℚ) :=
  fun _ _ => (create_langchain_documents store1).map (fun d => (d.metadata, mkRat 1 2))

/-- C5: a query whose lowercased, trimmed text contains any phrase of the
fixed greeting set classifies as `greeting`, whatever other filter or
sort keywords or resolvable locations it also contains. -/
theorem greeting_phrase_forces_greeting (q : String) (locs : List String)
    (h : greetings.any (fun g => pyIn g (pyStrip (pyLower q))) = true) :
    classify_user_query q locs = "greeting" := by
  simp [classify_user_query, h]

/-- Witness for C5: the spec's own example, a greeting phrase co-occurring
with sort keywords, a BHK clause and a resolvable location. -/
theorem greeting_phrase_forces_greeting_witness :
    greetings.any
        (fun g => pyIn g (pyStrip (pyLower "hi, show cheapest 2 bhk in Pune"))) = true ∧
      classify_user_query "hi, show cheapest 2 bhk in Pune" ["Koregaon Park, Pune"] =
        "greeting" :=
  ⟨by decide,
    greeting_phrase_forces_greeting "hi, show cheapest 2 bhk in Pune"
      ["Koregaon Park, Pune"] (by decide)⟩

/-- C9: greeting detection is substring containment, so any query whose
lowercased, trimmed text contains `hi` anywhere — also inside a longer
word such as `delhi` — classifies as `greeting` and can reach no other
intent. -/
theorem hi_substring_forces_greeting (q : String) (locs : List String)
    (h : pyIn "hi" (pyStrip (pyLower q)) = true) :
    classify_user_query q locs = "greeting" := by
  have hg : greetings.any (fun g => pyIn g (pyStrip (pyLower q))) = true := by
    simp [greetings, h]
  simp [classify_user_query, hg]

/-- Witness for C9: a query mentioning `delhi` and no actual greeting is
still classified `greeting`. -/
theorem hi_substring_forces_greeting_witness :
    pyIn "hi" (pyStrip (pyLower "show me apartments in delhi")) = true ∧
      classify_user_query "show me apartments in delhi" ["Delhi, India"] = "greeting" :=
  ⟨by decide,
    hi_substring_forces_greeting "show me apartments in delhi" ["Delhi, India"] (by decide)⟩

/-- C10: filter triggers are substrings — a query with no greeting phrase
and no superlative sort phrase whose lowercased text contains `in`
anywhere (also inside a word such as `interested`) classifies as
`filter_search`; and `semantic_search` is reached only when every trigger
substring is absent. -/
theorem in_substring_forces_filter (q : String) (locs : List String) :
    (greetings.any (fun g => pyIn g (pyStrip (pyLower q))) = false →
      priceDescHit (pyStrip (pyLower q)) = false →
      priceAscHit (pyStrip (pyLower q)) = false →
      areaDescHit (pyStrip (pyLower q)) = false →
      areaAscHit (pyStrip (pyLower q)) = false →
      pyIn "in" (pyStrip (pyLower q)) = true →
      classify_user_query q locs = "filter_search") ∧
    (classify_user_query q locs = "semantic_search" →
      filterTriggers.all (fun w => !pyIn w (pyStrip (pyLower q))) = true) := by
  constructor
  · intro h1 h2 h3 h4 h5 h6
    have ha : filterTriggers.any (fun w => pyIn w (pyStrip (pyLower q))) = true := by
      simp [filterTriggers, h6]
    simp [classify_user_query, h1, h2, h3, h4, h5, ha]
  · intro h
    cases ha : filterTriggers.any (fun w => pyIn w (pyStrip (pyLower q))) with
    | false =>
      rw [List.any_eq_false] at ha
      rw [List.all_eq_true]
      intro w hw
      simp [ha w hw]
    | true =>
      exfalso
      simp only [classify_user_query] at h
      rw [ha] at h
      simp only [if_true] at h
      split at h
      · exact absurd h (by decide)
      · split at h
        · split at h
          · exact absurd h (by decide)
          · exact absurd h (by decide)
        · split at h
          · split at h
            · exact absurd h (by decide)
            · exact absurd h (by decide)
          · split at h
            · split at h
              · exact absurd h (by decide)
              · exact absurd h (by decide)
            · split at h
              · split at h
                · exact absurd h (by decide)
                · exact absurd h (by decide)
              · exact absurd h (by decide)

/-- Witness for C10: `interested` contains neither a greeting phrase nor
a sort phrase but does contain `in`, so it is routed to `filter_search`. -/
theorem in_substring_forces_filter_witness :
    pyIn "in" (pyStrip (pyLower "interested")) = true ∧
      classify_user_query "interested" [] = "filter_search" :=
  ⟨by decide,
    (in_substring_forces_filter "interested" []).1 (by decide) (by decide) (by decide)
      (by decide) (by decide) (by decide)⟩

/-- C6 (amended): the price rules are an `if`/`elif`, not independent —
whenever a ceiling trigger (`under`/`below`) is present, the floor
constraint is never set, and the ceiling constraint is exactly the
ceiling pattern's leftmost parse, even if a floor trigger with a number
is also present. -/
theorem price_ceiling_shadows_floor (q : String) (locs : List String)
    (h : (pyIn "under" (pyLower q) || pyIn "below" (pyLower q)) = true) :
    (extract_filter q locs).priceLe =
        findKwNum "under".data "below".data (pyLower q).data ∧
      (extract_filter q locs).priceGe = none := by
  simp [extract_filter, h]

/-- Witness for C6's amended statement, on a query with both triggers. -/
theorem price_ceiling_shadows_floor_witness :
    (pyIn "under" (pyLower "above 100 under 200") ||
        pyIn "below" (pyLower "above 100 under 200")) = true ∧
      (extract_filter "above 100 under 200" []).priceLe =
        findKwNum "under".data "below".data (pyLower "above 100 under 200").data ∧
      (extract_filter "above 100 under 200" []).priceGe = none :=
  ⟨by decide, price_ceiling_shadows_floor "above 100 under 200" [] (by decide)⟩

/-- Counterexample to C6 as stated: `above 100 under 200` carries both a
parsable ceiling trigger and a parsable floor trigger, yet the built
filter has only the `price <= 200` constraint and no `price >= 100`. -/
theorem both_price_triggers_counterexample :
    findKwNum "under".data "below".data (pyLower "above 100 under 200").data = some 200 ∧
      findKwNum "above".data "over".data (pyLower "above 100 under 200").data = some 100 ∧
      (extract_filter "above 100 under 200" []).priceLe = some 200 ∧
      (extract_filter "above 100 under 200" []).priceGe = none := by decide

/-- C7: whichever price branch a trigger word selects — the ceiling
branch on `under`/`below`, or the floor branch on `above`/`over` when no
ceiling trigger is present — a numeric pattern that fails to parse leaves
both price constraints silently absent and every other extraction rule
still runs: the built filter equals the one assembled from the
independent BHK, location and amenity extractors alone. -/
theorem price_parse_failure_is_silent (q : String) (locs : List String) :
    ((pyIn "under" (pyLower q) || pyIn "below" (pyLower q)) = true →
      findKwNum "under".data "below".data (pyLower q).data = none →
      extract_filter q locs =
        ⟨findBhk (pyLower q).data, extract_location_from_query (pyLower q) locs,
          none, none, extract_amenities (pyLower q)⟩) ∧
    ((pyIn "under" (pyLower q) || pyIn "below" (pyLower q)) = false →
      (pyIn "above" (pyLower q) || pyIn "over" (pyLower q)) = true →
      findKwNum "above".data "over".data (pyLower q).data = none →
      extract_filter q locs =
        ⟨findBhk (pyLower q).data, extract_location_from_query (pyLower q) locs,
          none, none, extract_amenities (pyLower q)⟩) := by
  constructor
  · intro h1 h2
    simp [extract_filter, h1, h2]
  · intro h1 h2 h3
    simp [extract_filter, h1, h2, h3]

/-- Witness for C7, one query per branch: `under x` hits the ceiling
trigger and `above x` the floor trigger, neither with a parsable number,
and extraction completes both times with no price constraint. -/
theorem price_parse_failure_is_silent_witness :
    (((pyIn "under" (pyLower "under x") || pyIn "below" (pyLower "under x")) = true ∧
        findKwNum "under".data "below".data (pyLower "under x").data = none) ∧
      extract_filter "under x" [] =
        ⟨findBhk (pyLower "under x").data, extract_location_from_query (pyLower "under x") [],
          none, none, extract_amenities (pyLower "under x")⟩) ∧
    (((pyIn "under" (pyLower "above x") || pyIn "below" (pyLower "above x")) = false ∧
        (pyIn "above" (pyLower "above x") || pyIn "over" (pyLower "above x")) = true ∧
        findKwNum "above".data "over".data (pyLower "above x").data = none) ∧
      extract_filter "above x" [] =
        ⟨findBhk (pyLower "above x").data, extract_location_from_query (pyLower "above x") [],
          none, none, extract_amenities (pyLower "above x")⟩) :=
  ⟨⟨⟨by decide, by decide⟩,
      (price_parse_failure_is_silent "under x" []).1 (by decide) (by decide)⟩,
    ⟨⟨by decide, by decide, by decide⟩,
      (price_parse_failure_is_silent "above x" []).2 (by decide) (by decide) (by decide)⟩⟩

/-- Spec-side stage 1 of the resolver: the first map entry whose full
lowercase string the query contains. -/
def resolveStage1 (ql : String) (m : List (String × String)) : Option String :=
  (m.find? (fun p => pyIn p.1 ql)).map Prod.snd

/-- Spec-side stage 2: the first map entry whose city part (leading
segment up to the first comma) the query contains. -/
def resolveStage2 (ql : String) (m : List (String × String)) : Option String :=
  (m.find? (fun p => pyIn (cityPart p.1) ql)).map Prod.snd

/-- Spec-side stage 3: the first alias (in the fixed alias order) that
the query contains and that some map entry's key contains; a contained
alias with no matching entry falls through to later aliases. -/
def resolveStage3 (ql : String) (m : List (String × String)) : Option String :=
  cityAliasesFlat.findSome? (fun a =>
    if pyIn a ql then (m.find? (fun p => pyIn a p.1)).map Prod.snd else none)

lemma locLoop1_eq_find (ql : String) :
    ∀ m : List (String × String), locLoop1 ql m = resolveStage1 ql m := by
  intro m
  induction m with
  | nil => rfl
  | cons p rest ih =>
    obtain ⟨kl, ks⟩ := p
    by_cases hc : pyIn kl ql = true
    · simp [locLoop1, resolveStage1, List.find?, hc]
    · simp only [Bool.not_eq_true] at hc
      simp [locLoop1, resolveStage1, List.find?, hc, ih]

lemma locLoop2_eq_find (ql : String) :
    ∀ m : List (String × String), locLoop2 ql m = resolveStage2 ql m := by
  intro m
  induction m with
  | nil => rfl
  | cons p rest ih =>
    obtain ⟨kl, ks⟩ := p
    by_cases hc : pyIn (cityPart kl) ql = true
    · simp [locLoop2, resolveStage2, List.find?, hc]
    · simp only [Bool.not_eq_true] at hc
      simp [locLoop2, resolveStage2, List.find?, hc, ih]

lemma locLoop3Inner_eq_find (a : String) :
    ∀ m : List (String × String),
      locLoop3Inner a m = (m.find? (fun p => pyIn a p.1)).map Prod.snd := by
  intro m
  induction m with
  | nil => rfl
  | cons p rest ih =>
    obtain ⟨kl, ks⟩ := p
    by_cases hc : pyIn a kl = true
    · simp [locLoop3Inner, List.find?, hc]
    · simp only [Bool.not_eq_true] at hc
      simp [locLoop3Inner, List.find?, hc, ih]

lemma locLoop3_eq_findSome (ql : String) (m : List (String × String)) :
    ∀ as : List String,
      locLoop3 ql m as =
        as.findSome? (fun a =>
          if pyIn a ql then (m.find? (fun p => pyIn a p.1)).map Prod.snd else none) := by
  intro as
  induction as with
  | nil => rfl
  | cons a rest ih =>
    by_cases hc : pyIn a ql = true
    · simp only [locLoop3, hc, if_true, List.findSome?, locLoop3Inner_eq_find]
      cases (m.find? (fun p => pyIn a p.1)).map Prod.snd with
      | none => simpa using ih
      | some v => simp
    · simp only [Bool.not_eq_true] at hc
      simp [locLoop3, List.findSome?, hc, ih]

/-- C8: location resolution is the strict priority composition of the
three matching stages — a full-string containment match wins over a
city-part match, which wins over an alias match, and the resolver
returns `none` exactly when no stage matches. -/
theorem location_resolution_priority (q : String) (locs : List String) :
    extract_location_from_query q locs =
      (resolveStage1 (pyLower q) (buildLocMap locs)).orElse (fun _ =>
        (resolveStage2 (pyLower q) (buildLocMap locs)).orElse (fun _ =>
          resolveStage3 (pyLower q) (buildLocMap locs))) := by
  show (match locLoop1 (pyLower q) (buildLocMap locs) with
    | some v => some v
    | none =>
      match locLoop2 (pyLower q) (buildLocMap locs) with
      | some v => some v
      | none => locLoop3 (pyLower q) (buildLocMap locs) cityAliasesFlat) = _
  rw [locLoop1_eq_find, locLoop2_eq_find, locLoop3_eq_findSome]
  show (match resolveStage1 (pyLower q) (buildLocMap locs) with
    | some v => some v
    | none =>
      match resolveStage2 (pyLower q) (buildLocMap locs) with
      | some v => some v
      | none => resolveStage3 (pyLower q) (buildLocMap locs)) = _
  cases resolveStage1 (pyLower q) (buildLocMap locs) with
  | some v => rfl
  | none =>
    cases resolveStage2 (pyLower q) (buildLocMap locs) with
    | some v => rfl
    | none => rfl

lemma dedupKey_augmentSem (d : Row) (s : ℚ) : dedupKey (augmentSem d s) = dedupKey d := rfl

lemma semLoop_length_le (topk : Nat) :
    ∀ (rs : List (Row × ℚ)) (u : List (Nat × String × Nat × Nat)) (acc : List Row),
      acc.length < topk → (semLoop topk rs u acc).length ≤ topk := by
  intro rs
  induction rs with
  | nil => intro u acc h; simpa [semLoop] using Nat.le_of_lt h
  | cons p rest ih =>
    obtain ⟨doc, score⟩ := p
    intro u acc h
    simp only [semLoop]
    by_cases hk : dedupKey doc ∈ u
    · rw [if_pos hk]
      rw [if_neg (by simpa using Nat.not_le_of_lt h)]
      exact ih u acc h
    · rw [if_neg hk]
      by_cases hl : topk ≤ (acc ++ [augmentSem doc score]).length
      · rw [if_pos hl]
        simpa using h
      · rw [if_neg hl]
        refine ih _ _ ?_
        simpa using Nat.lt_of_not_le hl

lemma semLoop_keys_nodup (topk : Nat) :
    ∀ (rs : List (Row × ℚ)) (u : List (Nat × String × Nat × Nat)) (acc : List Row),
      (acc.map dedupKey).Nodup → (∀ k ∈ acc.map dedupKey, k ∈ u) →
      ((semLoop topk rs u acc).map dedupKey).Nodup := by
  intro rs
  induction rs with
  | nil => intro u acc h _; simpa [semLoop] using h
  | cons p rest ih =>
    obtain ⟨doc, score⟩ := p
    intro u acc hnd hsub
    simp only [semLoop]
    by_cases hk : dedupKey doc ∈ u
    · rw [if_pos hk]
      by_cases hl : topk ≤ acc.length
      · rw [if_pos hl]; exact hnd
      · rw [if_neg hl]; exact ih u acc hnd hsub
    · rw [if_neg hk]
      have hnotin : dedupKey doc ∉ acc.map dedupKey := fun hmem => hk (hsub _ hmem)
      have hnd' : ((acc ++ [augmentSem doc score]).map dedupKey).Nodup := by
        rw [List.map_append]
        simp only [List.map_cons, List.map_nil, dedupKey_augmentSem]
        rw [List.nodup_append]
        exact ⟨hnd, List.nodup_singleton _, by simpa [List.disjoint_singleton] using hnotin⟩
      have hsub' : ∀ k ∈ (acc ++ [augmentSem doc score]).map dedupKey,
          k ∈ dedupKey doc :: u := by
        intro k hkm
        rw [List.map_append] at hkm
        rcases List.mem_append.mp hkm with hkl | hkr
        · exact List.mem_cons_of_mem _ (hsub _ hkl)
        · simp only [List.map_cons, List.map_nil, dedupKey_augmentSem,
            List.mem_singleton] at hkr
          exact hkr ▸ List.mem_cons_self _ _
      by_cases hl : topk ≤ (acc ++ [augmentSem doc score]).length
      · rw [if_pos hl]; exact hnd'
      · rw [if_neg hl]; exact ih _ _ hnd' hsub'

lemma semLoop_append_sublist (topk : Nat) :
    ∀ (rs : List (Row × ℚ)) (u : List (Nat × String × Nat × Nat)) (acc : List Row),
      ∃ s, semLoop topk rs u acc = acc ++ s ∧
        s.Sublist (rs.map (fun p => augmentSem p.1 p.2)) := by
  intro rs
  induction rs with
  | nil => intro u acc; exact ⟨[], by simp [semLoop]⟩
  | cons p rest ih =>
    obtain ⟨doc, score⟩ := p
    intro u acc
    simp only [semLoop]
    by_cases hk : dedupKey doc ∈ u
    · rw [if_pos hk]
      by_cases hl : topk ≤ acc.length
      · rw [if_pos hl]
        exact ⟨[], by simp, List.nil_sublist _⟩
      · rw [if_neg hl]
        obtain ⟨s, he, hs⟩ := ih u acc
        exact ⟨s, he, hs.cons _⟩
    · rw [if_neg hk]
      by_cases hl : topk ≤ (acc ++ [augmentSem doc score]).length
      · rw [if_pos hl]
        exact ⟨[augmentSem doc score], rfl,
          List.Sublist.cons₂ (augmentSem doc score)
            (List.nil_sublist (rest.map (fun p => augmentSem p.1 p.2)))⟩
      · rw [if_neg hl]
        obtain ⟨s, he, hs⟩ := ih (dedupKey doc :: u) (acc ++ [augmentSem doc score])
        refine ⟨augmentSem doc score :: s, ?_, ?_⟩
        · rw [he, List.append_assoc]; rfl
        · simpa using List.Sublist.cons₂ (augmentSem doc score) hs

/-- C4: for every query and every (document, distance) sequence the
vector index returns, semantic search emits at most `top_k` items
(`top_k ≥ 1`), their dedup keys (bedrooms, location, price, area_sqft)
are pairwise distinct, the emitted sequence is an order-preserving
subsequence of the index's sequence, and every item carries its distance
rounded to 4 decimal places. -/
theorem chromadb_semantic_search_props (vec : String → Nat → List (Row × ℚ))
    (q : String) (topk : Nat) (h : 1 ≤ topk) :
    (chromadb_semantic_search vec q topk).length ≤ topk ∧
      ((chromadb_semantic_search vec q topk).map dedupKey).Nodup ∧
      (chromadb_semantic_search vec q topk).Sublist
        ((vec q (topk * 2)).map (fun p => augmentSem p.1 p.2)) ∧
      ∀ r ∈ chromadb_semantic_search vec q topk,
        ∃ p, p ∈ vec q (topk * 2) ∧ r = augmentSem p.1 p.2 ∧
          r.similarity_score = some (pyRoundTo 4 p.2) := by
  have hsub : (chromadb_semantic_search vec q topk).Sublist
      ((vec q (topk * 2)).map (fun p => augmentSem p.1 p.2)) := by
    obtain ⟨s, he, hs⟩ := semLoop_append_sublist topk (vec q (topk * 2)) [] []
    unfold chromadb_semantic_search
    rw [he]
    simpa using hs
  refine ⟨?_, ?_, hsub, ?_⟩
  · exact semLoop_length_le topk _ [] [] (by simpa using h)
  · exact semLoop_keys_nodup topk _ [] [] (by simp) (by simp)
  · intro r hr
    have hm : r ∈ (vec q (topk * 2)).map (fun p => augmentSem p.1 p.2) :=
      hsub.subset hr
    obtain ⟨p, hp, hpe⟩ := List.mem_map.mp hm
    exact ⟨p, hp, hpe.symm, by rw [← hpe]; rfl⟩

/-- Witness for C4 at a concrete index returning the `apt1` document. -/
theorem chromadb_semantic_search_props_witness :
    1 ≤ 5 ∧
      ((chromadb_semantic_search vecDoc "nice view" 5).length ≤ 5 ∧
        ((chromadb_semantic_search vecDoc "nice view" 5).map dedupKey).Nodup ∧
        (chromadb_semantic_search vecDoc "nice view" 5).Sublist
          ((vecDoc "nice view" (5 * 2)).map (fun p => augmentSem p.1 p.2)) ∧
        ∀ r ∈ chromadb_semantic_search vecDoc "nice view" 5,
          ∃ p, p ∈ vecDoc "nice view" (5 * 2) ∧ r = augmentSem p.1 p.2 ∧
            r.similarity_score = some (pyRoundTo 4 p.2)) :=
  ⟨by decide, chromadb_semantic_search_props vecDoc "nice view" 5 (by decide)⟩

lemma handle_user_query_ne_nil (store : List Apartment)
    (vec : String → Nat → List (Row × ℚ)) (q : String) (k : Nat) :
    handle_user_query store vec q k ≠ [] := by
  by_cases h1 : (classify_user_query q (get_unique_locations store) == "greeting") = true
  · simp [handle_user_query, h1]
  · simp only [Bool.not_eq_true] at h1
    by_cases h2 : ((dispatch store vec q (get_unique_locations store)
        (classify_user_query q (get_unique_locations store)) k).map enrich).isEmpty = true
    · simp [handle_user_query, h1, h2]
    · simp only [Bool.not_eq_true] at h2
      simp [handle_user_query, h1, h2]

lemma handler_score_none (store : List Apartment)
    (vec : String → Nat → List (Row × ℚ)) (q : String) (k : Nat) :
    ∀ it ∈ handle_user_query store vec q k, it.similarity_score = none := by
  intro it hit
  by_cases h1 : (classify_user_query q (get_unique_locations store) == "greeting") = true
  · simp [handle_user_query, h1] at hit
    simp [hit]
  · simp only [Bool.not_eq_true] at h1
    by_cases h2 : ((dispatch store vec q (get_unique_locations store)
        (classify_user_query q (get_unique_locations store)) k).map enrich).isEmpty = true
    · simp [handle_user_query, h1, h2] at hit
      simp [hit]
    · simp only [Bool.not_eq_true] at h2
      simp [handle_user_query, h1, h2, List.mem_map] at hit
      rcases hit with hit | ⟨r, _, hit⟩
      · simp [hit]
      · rw [← hit]
        rfl

/-- C1 (amended): when the selected strategy returns no records and the
intent is not a greeting, `handle_user_query` wraps the fixed apology in
a single `no_results`-tagged item, so the match list is never empty and
`get_chat_response` returns a `success` envelope carrying the apology as
its only result; the `no_results` status is unreachable on every input. -/
theorem empty_retrieval_yields_success_envelope (store : List Apartment)
    (vec : String → Nat → List (Row × ℚ)) (q : String) :
    (classify_user_query q (get_unique_locations store) ≠ "greeting" →
      dispatch store vec q (get_unique_locations store)
        (classify_user_query q (get_unique_locations store)) 5 = [] →
      get_chat_response store vec q =
        ⟨"success", none, some q, [⟨noResultsMsg, some 0⟩]⟩) ∧
    (get_chat_response store vec q).status ≠ "no_results" := by
  constructor
  · intro h1 h2
    have hb : (classify_user_query q (get_unique_locations store) == "greeting") = false := by
      simpa using h1
    have hh : handle_user_query store vec q 5 =
        [⟨noResultsMsg, some ItemTag.no_results, none, none⟩] := by
      simp [handle_user_query, hb, h2]
    have hz : pyRoundTo 3 ((0 : ℚ)) = 0 := by decide
    have ht : (some ItemTag.no_results == some ItemTag.greeting) = false := by decide
    simp [get_chat_response, hh, ht, hz]
  · cases hm : handle_user_query store vec q 5 with
    | nil => exact absurd hm (handle_user_query_ne_nil store vec q 5)
    | cons m rest =>
      by_cases ht : (m.tag == some ItemTag.greeting) = true
      · simp [get_chat_response, hm, ht]
      · simp only [Bool.not_eq_true] at ht
        simp [get_chat_response, hm, ht]

/-- Witness for C1's amended statement: the filter intent `in` over an
empty store retrieves nothing, and the envelope comes back `success`. -/
theorem empty_retrieval_yields_success_envelope_witness :
    get_chat_response [] vecEmpty "in" =
        ⟨"success", none, some "in", [⟨noResultsMsg, some 0⟩]⟩ ∧
      (get_chat_response [] vecEmpty "in").status ≠ "no_results" :=
  ⟨(empty_retrieval_yields_success_envelope [] vecEmpty "in").1 (by decide) (by decide),
    (empty_retrieval_yields_success_envelope [] vecEmpty "in").2⟩

/-- Counterexample to C1 as stated: on the query `in` over an empty store
the strategy returns no records and the intent is not a greeting, yet the
envelope's status is `success`, not `no_results`. -/
theorem no_results_status_counterexample :
    classify_user_query "in" (get_unique_locations []) = "filter_search" ∧
      dispatch [] vecEmpty "in" (get_unique_locations []) "filter_search" 5 = [] ∧
      (get_chat_response [] vecEmpty "in").status = "success" ∧
      ¬(get_chat_response [] vecEmpty "in").status = "no_results" := by decide

/-- C2 (amended): every result item of every envelope carries a
`similarity_score` field, and because the enrichment step drops the
internal score from every handler item, its value is always 0 — on the
semantic path as much as on the sort and filter paths. -/
theorem envelope_scores_always_zero (store : List Apartment)
    (vec : String → Nat → List (Row × ℚ)) (q : String) :
    ∀ r ∈ (get_chat_response store vec q).results, r.similarity_score = some 0 := by
  intro r hr
  cases hm : handle_user_query store vec q 5 with
  | nil => simp [get_chat_response, hm] at hr
  | cons m rest =>
    by_cases ht : (m.tag == some ItemTag.greeting) = true
    · simp [get_chat_response, hm, ht] at hr
    · simp only [Bool.not_eq_true] at ht
      simp only [get_chat_response, hm, ht, Bool.false_eq_true, if_false,
        List.mem_map] at hr
      obtain ⟨mm, hmm, hre⟩ := hr
      have hsn : mm.similarity_score = none :=
        handler_score_none store vec q 5 mm (by rw [hm]; exact hmm)
      have hz : pyRoundTo 3 ((0 : ℚ)) = 0 := by decide
      rw [← hre]
      simp [hsn, hz]

/-- Witness for C2's amended statement at a concrete filter query. -/
theorem envelope_scores_always_zero_witness :
    ((get_chat_response store1 vecEmpty "in").results.headD ⟨"", none⟩) ∈
        (get_chat_response store1 vecEmpty "in").results ∧
      ((get_chat_response store1 vecEmpty "in").results.headD ⟨"", none⟩).similarity_score =
        some 0 :=
  ⟨by decide, envelope_scores_always_zero store1 vecEmpty "in" _ (by decide)⟩

/-- Counterexample to C2 as stated: a `success` envelope served by filter
retrieval whose record item does carry a `similarity_score` field. -/
theorem filter_result_carries_score_counterexample :
    classify_user_query "in" (get_unique_locations store1) = "filter_search" ∧
      (get_chat_response store1 vecEmpty "in").status = "success" ∧
      ¬((get_chat_response store1 vecEmpty "in").results.getD 1 ⟨"", none⟩).similarity_score
        = none := by decide

lemma mem_insertSorted (le : Apartment → Apartment → Bool) (a : Apartment) :
    ∀ (l : List Apartment) (x : Apartment), x ∈ insertSorted le a l → x = a ∨ x ∈ l := by
  intro l
  induction l with
  | nil =>
    intro x hx
    simp only [insertSorted, List.mem_singleton] at hx
    exact Or.inl hx
  | cons b t ih =>
    intro x hx
    simp only [insertSorted] at hx
    by_cases hc : le a b = true
    · rw [if_pos hc] at hx
      exact List.mem_cons.mp hx
    · rw [if_neg hc] at hx
      rcases List.mem_cons.mp hx with h | h
      · exact Or.inr (h ▸ List.mem_cons_self b t)
      · rcases ih x h with h' | h'
        · exact Or.inl h'
        · exact Or.inr (List.mem_cons_of_mem b h')

lemma mem_sortByLe (le : Apartment → Apartment → Bool) :
    ∀ (l : List Apartment) (x : Apartment), x ∈ sortByLe le l → x ∈ l := by
  intro l
  induction l with
  | nil => intro x hx; simp [sortByLe] at hx
  | cons b t ih =>
    intro x hx
    simp only [sortByLe] at hx
    rcases mem_insertSorted le b (sortByLe le t) x hx with h | h
    · exact h ▸ List.mem_cons_self b t
    · exact List.mem_cons_of_mem b (ih x h)

/-- C3 (amended): on the sort and filter paths every retrieved row is a
store record viewed unmodified as a dictionary, and enriching such a row
reproduces every record field — including the original amenity list — in
`details`; on the semantic path the four scalar fields round-trip but
`details.amenities` is the comma-joined string that
`create_langchain_documents` stored in the metadata, not the record's
list. -/
theorem details_reflect_records :
    (∀ (store : List Apartment) (q : String) (f : SortField) (d : Bool)
        (locs : List String) (k : Nat) (a : Apartment),
        a ∈ handle_location_specific_sort store q f d locs k → a ∈ store) ∧
    (∀ (store : List Apartment) (q : String) (locs : List String) (a : Apartment),
        a ∈ filter_based_search store q locs → a ∈ store) ∧
    (∀ a : Apartment, (enrich a.toRow).details =
        some ⟨a.bedrooms, a.location, a.price, a.area_sqft, AmenVal.list a.amenities⟩) ∧
    (∀ (s : ℚ) (data : List Apartment),
        (create_langchain_documents data).map
            (fun doc => (enrich (augmentSem doc.metadata s)).details) =
          data.map (fun a => some ⟨a.bedrooms, a.location, a.price, a.area_sqft,
            AmenVal.str (String.intercalate ", " a.amenities)⟩)) := by
  refine ⟨?_, ?_, ?_, ?_⟩
  · intro store q f d locs k a ha
    cases hloc : extract_location_from_query q locs with
    | none =>
      simp only [handle_location_specific_sort, hloc] at ha
      exact mem_sortByLe _ _ _ (List.mem_of_mem_take ha)
    | some l =>
      simp only [handle_location_specific_sort, hloc] at ha
      exact (List.mem_filter.mp (mem_sortByLe _ _ _ (List.mem_of_mem_take ha))).1
  · intro store q locs a ha
    unfold filter_based_search at ha
    exact (List.mem_filter.mp ha).1
  · intro a
    rfl
  · intro s data
    induction data with
    | nil => rfl
    | cons a t ih =>
      simp only [create_langchain_documents, List.map_cons] at ih ⊢
      exact congrArg (List.cons _) ih

/-- Witness for C3's amended statement: a sorted retrieval over the
one-record store returns `apt1` itself. -/
theorem details_reflect_records_witness :
    apt1 ∈ handle_location_specific_sort store1 "flats" SortField.price false [] 5 ∧
      apt1 ∈ store1 :=
  ⟨by decide,
    details_reflect_records.1 store1 "flats" SortField.price false [] 5 apt1 (by decide)⟩

/-- Counterexample to C3 as stated: on the semantic path the record item
built from `apt1` carries `details.amenities` equal to the comma-joined
string `Gym, Parking`, not the record's ordered amenity list. -/
theorem semantic_amenities_counterexample :
    apt1.amenities = ["Gym", "Parking"] ∧
      classify_user_query "cozy flat" (get_unique_locations store1) = "semantic_search" ∧
      ((handle_user_query store1 vecDoc "cozy flat" 5).getD 1
          ⟨"", none, none, none⟩).details =
        some ⟨2, "Baner, Pune", 45000, 950, AmenVal.str "Gym, Parking"⟩ ∧
      ¬((handle_user_query store1 vecDoc "cozy flat" 5).getD 1
          ⟨"", none, none, none⟩).details =
        some ⟨2, "Baner, Pune", 45000, 950, AmenVal.list ["Gym", "Parking"]⟩ := by decide
